import Mathlib

/-!
Shallow embedding of the checkout repository
(`src/adapter/src/repository/checkout.rs` of rusty-book-manager).

The three MySQL tables (`books`, `checkouts`, `returned_checkouts`) are
modelled as lists of row structures inside a `Db` state.  Each repository
method is translated into a pure function over `Db`; the two mutating
methods run inside a transaction, so they are modelled as
`Db → … → Except AppError Db`: an `error` result means the transaction was
rolled back and the store is unchanged.  Identifiers (UUIDs) and
timestamps are modelled as `Nat`.
-/

namespace BookManager

/-- A row of the `books` table (owned by the catalog subsystem, only
joined against here). -/
structure BookRow where
  book_id : Nat
  title : String
  author : String
  isbn : String
deriving DecidableEq, Repr

/-- A row of the `checkouts` table (an open checkout). -/
structure CheckoutRow where
  checkout_id : Nat
  book_id : Nat
  user_id : Nat
  checked_out_at : Nat
deriving DecidableEq, Repr

/-- A row of the `returned_checkouts` table. -/
structure ReturnedCheckoutRow where
  checkout_id : Nat
  book_id : Nat
  user_id : Nat
  checked_out_at : Nat
  returned_at : Nat
deriving DecidableEq, Repr

/-- The relational store the repository mutates and reads. -/
structure Db where
  books : List BookRow
  checkouts : List CheckoutRow
  returned_checkouts : List ReturnedCheckoutRow
deriving DecidableEq, Repr

/-- `kernel::model::checkout::event::CreateCheckout`. -/
structure CreateCheckout where
  book_id : Nat
  checked_out_by : Nat
  checked_out_at : Nat
deriving DecidableEq, Repr

/-- `kernel::model::checkout::event::UpdateReturned`. -/
structure UpdateReturned where
  checkout_id : Nat
  book_id : Nat
  returned_by : Nat
  returned_at : Nat
deriving DecidableEq, Repr

/-- `shared::error::AppError`, restricted to the variants produced by
`checkout.rs`.  The Rust variants carry formatted message strings; here
each constructor carries the identifiers interpolated into that message
(`EntityNotFound` the book id, `UnprocessableEntity` the interpolated id
list) or the literal English message (`NoRowsAffectedError`). -/
inductive AppError where
  | EntityNotFound (book_id : Nat)
  | UnprocessableEntity (ids : List Nat)
  | NoRowsAffectedError (msg : String)
deriving DecidableEq, Repr

/-- `kernel::model::checkout::CheckoutBook`: book metadata embedded in a
returned `Checkout` value. -/
structure CheckoutBook where
  book_id : Nat
  title : String
  author : String
  isbn : String
deriving DecidableEq, Repr

/-- `kernel::model::checkout::Checkout`: the value returned by the read
queries; `returned_at` is `none` for an open checkout. -/
structure Checkout where
  id : Nat
  checked_out_by : Nat
  checked_out_at : Nat
  returned_at : Option Nat
  book : CheckoutBook
deriving DecidableEq, Repr

/-- `From<CheckoutRow> for Checkout`: the joined open-checkout row
converted to the kernel `Checkout` value (`returned_at` is `none`). -/
def Checkout.fromRow (c : CheckoutRow) (b : BookRow) : Checkout :=
  { id := c.checkout_id
    checked_out_by := c.user_id
    checked_out_at := c.checked_out_at
    returned_at := none
    book := { book_id := c.book_id, title := b.title, author := b.author, isbn := b.isbn } }

/-- `From<ReturnedCheckoutRow> for Checkout`: the joined returned row
converted to the kernel `Checkout` value. -/
def Checkout.fromReturnedRow (r : ReturnedCheckoutRow) (b : BookRow) : Checkout :=
  { id := r.checkout_id
    checked_out_by := r.user_id
    checked_out_at := r.checked_out_at
    returned_at := some r.returned_at
    book := { book_id := r.book_id, title := b.title, author := b.author, isbn := b.isbn } }

/-! ## Stable insertion sort

`ORDER BY` clauses are modelled with a stable insertion sort over a
boolean "less or equal" relation. -/

/-- Insert `x` into `l` before the first element `y` with `le x y`. -/
def insertLe (le : α → α → Bool) (x : α) : List α → List α
  | [] => [x]
  | y :: ys => if le x y then x :: y :: ys else y :: insertLe le x ys

/-- Stable insertion sort by the boolean relation `le`. -/
def sortLe (le : α → α → Bool) : List α → List α
  | [] => []
  | x :: xs => insertLe le x (sortLe le xs)

/-! ## SQL query semantics -/

/-- `FROM checkouts AS c INNER JOIN books AS b USING(book_id)`: each open
checkout row paired with every matching book row, in table scan order. -/
def joinCheckoutsBooks (db : Db) : List (CheckoutRow × BookRow) :=
  db.checkouts.flatMap fun c =>
    (db.books.filter fun b => b.book_id == c.book_id).map fun b => (c, b)

/-- `FROM returned_checkouts AS rc INNER JOIN books AS b USING(book_id)`. -/
def joinReturnedBooks (db : Db) : List (ReturnedCheckoutRow × BookRow) :=
  db.returned_checkouts.flatMap fun r =>
    (db.books.filter fun b => b.book_id == r.book_id).map fun b => (r, b)

/-- `ORDER BY c.checked_out_at ASC` on joined open-checkout rows. -/
def leCheckedOutAsc (p q : CheckoutRow × BookRow) : Bool :=
  p.1.checked_out_at ≤ q.1.checked_out_at

/-- `ORDER BY rc.checked_out_at DESC` on joined returned rows. -/
def leCheckedOutDesc (p q : ReturnedCheckoutRow × BookRow) : Bool :=
  q.1.checked_out_at ≤ p.1.checked_out_at

/-! ## The repository operations -/

/-- The guard read of `create` (lines 35–73): the book left-outer-joined
with any open checkout on it, `fetch_optional`; the row's `user_id` is
selected as a `NULL` literal, so only the presence of a `checkout_id` is
observed.  Returns the error the guard raises, if any. -/
def createGuard (db : Db) (event : CreateCheckout) : Option AppError :=
  match db.books.find? (fun b => b.book_id == event.book_id) with
  | none => some (AppError.EntityNotFound event.book_id)
  | some _ =>
    match db.checkouts.find? (fun c => c.book_id == event.book_id) with
    | some _ => some (AppError.UnprocessableEntity [event.book_id])
    | none => none

/-- `CheckoutRepositoryImpl::create`: guard read, then
`INSERT INTO checkouts` of a fresh row; an error result models the
rolled-back transaction.  `checkout_id` stands for the freshly generated
`CheckoutId::new()`. -/
def create (db : Db) (event : CreateCheckout) (checkout_id : Nat) : Except AppError Db :=
  match createGuard db event with
  | some e => Except.error e
  | none =>
    let row : CheckoutRow :=
      { checkout_id := checkout_id
        book_id := event.book_id
        user_id := event.checked_out_by
        checked_out_at := event.checked_out_at }
    -- the INSERT of a single VALUES row affects exactly one row, so the
    -- `rows_affected() < 1` check (line 92) never fires in the model
    Except.ok { db with checkouts := db.checkouts ++ [row] }

/-- The guard read of `update_returned` (lines 120–159): the book
left-outer-joined with any open checkout on it; a mismatching
`(checkout_id, user_id)` pair is rejected, while a missing checkout
falls through to the write phase. -/
def updateGuard (db : Db) (event : UpdateReturned) : Option AppError :=
  match db.books.find? (fun b => b.book_id == event.book_id) with
  | none => some (AppError.EntityNotFound event.book_id)
  | some _ =>
    match db.checkouts.find? (fun c => c.book_id == event.book_id) with
    | some c =>
      if c.checkout_id == event.checkout_id && c.user_id == event.returned_by then none
      else some (AppError.UnprocessableEntity [event.checkout_id, event.returned_by, event.book_id])
    | none => none

/-- `CheckoutRepositoryImpl::update_returned`: guard read, then
`INSERT INTO returned_checkouts … SELECT …, ? FROM checkouts WHERE
checkout_id = ?` (note: no book filter), then
`DELETE FROM checkouts WHERE checkout_id = ?`; each write must affect at
least one row.  An error result models the rolled-back transaction.

The insert-from-select (lines 164–175) was ported from Postgres by
replacing `$2` (the `SELECT` list's `returned_at` slot) and `$1` (the
`WHERE checkout_id =` slot) with `?`, keeping the argument order
`event.checkout_id`, `event.returned_at`.  MySQL `?` placeholders bind
positionally in order of occurrence, so the statement as executed stamps
`returned_at := event.checkout_id` and filters
`WHERE checkout_id = event.returned_at` — the two bindings are swapped.
The delete (lines 187–195) has a single placeholder and binds
`event.checkout_id` correctly. -/
def update_returned (db : Db) (event : UpdateReturned) : Except AppError Db :=
  match updateGuard db event with
  | some e => Except.error e
  | none =>
    let moved := db.checkouts.filter fun c => c.checkout_id == event.returned_at
    if moved.length < 1 then
      Except.error (AppError.NoRowsAffectedError "No returning record has been updated")
    else
      let remaining := db.checkouts.filter fun c => ¬ c.checkout_id == event.checkout_id
      if (db.checkouts.length - remaining.length) < 1 then
        Except.error (AppError.NoRowsAffectedError "No checkout record has been deleted")
      else
        Except.ok
          { db with
            checkouts := remaining
            returned_checkouts :=
              db.returned_checkouts ++
                moved.map fun c =>
                  { checkout_id := c.checkout_id
                    book_id := c.book_id
                    user_id := c.user_id
                    checked_out_at := c.checked_out_at
                    returned_at := event.checkout_id } }

/-- The state visible after `create` finishes: the committed state on
success, the original state on any error (the transaction rolls back). -/
def createRun (db : Db) (event : CreateCheckout) (checkout_id : Nat) : Db × Option AppError :=
  match create db event checkout_id with
  | Except.ok db' => (db', none)
  | Except.error e => (db, some e)

/-- The state visible after `update_returned` finishes: the committed
state on success, the original state on any error. -/
def updateRun (db : Db) (event : UpdateReturned) : Db × Option AppError :=
  match update_returned db event with
  | Except.ok db' => (db', none)
  | Except.error e => (db, some e)

/-- `find_unreturned_all`: all open checkouts inner-joined with their book,
ordered by `checked_out_at` ascending, converted to `Checkout`. -/
def find_unreturned_all (db : Db) : List Checkout :=
  (sortLe leCheckedOutAsc (joinCheckoutsBooks db)).map fun p => Checkout.fromRow p.1 p.2

/-- `find_unreturned_by_user_id`: `find_unreturned_all` with a
`WHERE c.user_id = ?` filter (applied before the `ORDER BY`). -/
def find_unreturned_by_user_id (db : Db) (user_id : Nat) : List Checkout :=
  (sortLe leCheckedOutAsc
      ((joinCheckoutsBooks db).filter fun p => p.1.user_id == user_id)).map
    fun p => Checkout.fromRow p.1 p.2

/-- `find_unreturned_by_book_id` (private helper): the open checkout of a
book joined with the book row, `fetch_optional` (no `ORDER BY`). -/
def find_unreturned_by_book_id (db : Db) (book_id : Nat) : Option Checkout :=
  (((joinCheckoutsBooks db).filter fun p => p.1.book_id == book_id).head?).map
    fun p => Checkout.fromRow p.1 p.2

/-- The returned records of a book, joined with the book row and ordered
by `checked_out_at` descending (the second query of
`find_history_by_book_id`). -/
def returnedHistory (db : Db) (book_id : Nat) : List Checkout :=
  (sortLe leCheckedOutDesc
      ((joinReturnedBooks db).filter fun p => p.1.book_id == book_id)).map
    fun p => Checkout.fromReturnedRow p.1 p.2

/-- `find_history_by_book_id`: the returned records ordered descending,
with the open checkout (if any) inserted at position 0. -/
def find_history_by_book_id (db : Db) (book_id : Nat) : List Checkout :=
  let checkout := find_unreturned_by_book_id db book_id
  let checkout_histories := returnedHistory db book_id
  match checkout with
  | some co => co :: checkout_histories
  | none => checkout_histories

/-! ## Statement traces

For the temporal claim about isolation-level elevation the two mutating
operations are additionally modelled as the sequence of SQL statements
they issue on the transaction, in source order. -/

/-- A statement issued on an open transaction. -/
inductive Stmt where
  | setSerializable
  | guardReadCreate (book_id : Nat)
  | insertCheckout (checkout_id book_id user_id checked_out_at : Nat)
  | guardReadReturn (book_id : Nat)
  | insertReturned (returned_at_value : Nat) (where_checkout_id : Nat)
  | deleteCheckout (checkout_id : Nat)
deriving DecidableEq, Repr

/-- The statements `create` issues on its transaction, in order
(early-exiting exactly where the source returns an error). -/
def createStmts (db : Db) (event : CreateCheckout) (checkout_id : Nat) : List Stmt :=
  Stmt.setSerializable ::
  Stmt.guardReadCreate event.book_id ::
  match createGuard db event with
  | some _ => []
  | none =>
    [Stmt.insertCheckout checkout_id event.book_id event.checked_out_by event.checked_out_at]

/-- The statements `update_returned` issues on its transaction, in order;
the insert-from-select carries its positionally bound parameters, so
`event.checkout_id` fills the `returned_at` value slot and
`event.returned_at` the `WHERE checkout_id =` slot, and the delete is
only reached when that insert affected at least one row. -/
def updateStmts (db : Db) (event : UpdateReturned) : List Stmt :=
  Stmt.setSerializable ::
  Stmt.guardReadReturn event.book_id ::
  match updateGuard db event with
  | some _ => []
  | none =>
    Stmt.insertReturned event.checkout_id event.returned_at ::
    if (db.checkouts.filter fun c => c.checkout_id == event.returned_at).length < 1 then []
    else [Stmt.deleteCheckout event.checkout_id]

/-- The invariant of §3: at most one open checkout per book identifier
(no two `checkouts` rows share a `book_id`). -/
def atMostOneOpen (db : Db) : Prop :=
  db.checkouts.Pairwise fun c₁ c₂ => c₁.book_id ≠ c₂.book_id

instance (db : Db) : Decidable (atMostOneOpen db) := by
  unfold atMostOneOpen; infer_instance

/-! ## Lemmas about the stable insertion sort -/

theorem mem_insertLe {le : α → α → Bool} {x a : α} :
    ∀ {l : List α}, a ∈ insertLe le x l ↔ a = x ∨ a ∈ l := by
  intro l
  induction l with
  | nil => simp [insertLe]
  | cons y ys ih =>
    by_cases h : le x y = true
    · simp [insertLe, h]
    · simp only [insertLe, h, Bool.false_eq_true, if_false, List.mem_cons, ih]
      tauto

theorem insertLe_perm (le : α → α → Bool) (x : α) :
    ∀ l : List α, (insertLe le x l).Perm (x :: l) := by
  intro l
  induction l with
  | nil => simp [insertLe]
  | cons y ys ih =>
    by_cases h : le x y = true
    · simp [insertLe, h]
    · simp only [insertLe, h, Bool.false_eq_true, if_false]
      exact (ih.cons y).trans (List.Perm.swap x y ys)

theorem sortLe_perm (le : α → α → Bool) : ∀ l : List α, (sortLe le l).Perm l := by
  intro l
  induction l with
  | nil => simp [sortLe]
  | cons x xs ih =>
    exact (insertLe_perm le x (sortLe le xs)).trans (ih.cons x)

theorem mem_sortLe {le : α → α → Bool} {a : α} {l : List α} :
    a ∈ sortLe le l ↔ a ∈ l :=
  (sortLe_perm le l).mem_iff

theorem pairwise_insertLe {le : α → α → Bool} {x : α} {l : List α}
    (htot : ∀ a b, le a b = true ∨ le b a = true)
    (htrans : ∀ a b c, le a b = true → le b c = true → le a c = true)
    (hl : l.Pairwise fun a b => le a b = true) :
    (insertLe le x l).Pairwise fun a b => le a b = true := by
  induction l with
  | nil => simp [insertLe]
  | cons y ys ih =>
    rcases List.pairwise_cons.mp hl with ⟨hy, hys⟩
    by_cases h : le x y = true
    · simp only [insertLe, h, if_true]
      refine List.pairwise_cons.mpr ⟨?_, hl⟩
      intro a ha
      rcases List.mem_cons.mp ha with rfl | ha
      · exact h
      · exact htrans x y a h (hy a ha)
    · simp only [insertLe, h, Bool.false_eq_true, if_false]
      refine List.pairwise_cons.mpr ⟨?_, ih hys⟩
      intro a ha
      rcases mem_insertLe.mp ha with rfl | ha
      · rcases htot a y with hay | hya
        · exact absurd hay h
        · exact hya
      · exact hy a ha

theorem pairwise_sortLe {le : α → α → Bool} (l : List α)
    (htot : ∀ a b, le a b = true ∨ le b a = true)
    (htrans : ∀ a b c, le a b = true → le b c = true → le a c = true) :
    (sortLe le l).Pairwise fun a b => le a b = true := by
  induction l with
  | nil => simp [sortLe]
  | cons x xs ih => exact pairwise_insertLe htot htrans ih

theorem insertLe_of_forall_le {le : α → α → Bool} {x : α} {l : List α}
    (h : ∀ z ∈ l, le x z = true) : insertLe le x l = x :: l := by
  cases l with
  | nil => rfl
  | cons y ys => simp [insertLe, h y (List.mem_cons_self y ys)]

/-- Stability of the insertion sort: filtering commutes with inserting
into a sorted list. -/
theorem filter_insertLe {le : α → α → Bool} {p : α → Bool} {x : α} {l : List α}
    (htrans : ∀ a b c, le a b = true → le b c = true → le a c = true)
    (hl : l.Pairwise fun a b => le a b = true) :
    (insertLe le x l).filter p =
      if p x then insertLe le x (l.filter p) else l.filter p := by
  induction l with
  | nil => by_cases hx : p x <;> simp [insertLe, hx]
  | cons y ys ih =>
    rcases List.pairwise_cons.mp hl with ⟨hy, hys⟩
    by_cases h : le x y = true
    · by_cases hx : p x
      · by_cases hpy : p y
        · simp [insertLe, h, hx, hpy, List.filter_cons]
        · simp only [insertLe, h, if_true, List.filter_cons, hx, if_true, hpy,
            Bool.false_eq_true, if_false]
          refine (insertLe_of_forall_le ?_).symm
          intro z hz
          exact htrans x y z h (hy z (List.mem_filter.mp hz).1)
      · simp [insertLe, h, hx, List.filter_cons]
    · by_cases hpy : p y
      · by_cases hx : p x <;>
          simp [insertLe, h, List.filter_cons, hpy, hx, ih hys]
      · by_cases hx : p x <;>
          simp [insertLe, h, List.filter_cons, hpy, hx, ih hys]

/-- Stability of the insertion sort: `WHERE` before `ORDER BY` equals
`ORDER BY` before `WHERE`. -/
theorem filter_sortLe {le : α → α → Bool} (p : α → Bool) (l : List α)
    (htot : ∀ a b, le a b = true ∨ le b a = true)
    (htrans : ∀ a b c, le a b = true → le b c = true → le a c = true) :
    (sortLe le l).filter p = sortLe le (l.filter p) := by
  induction l with
  | nil => simp [sortLe]
  | cons x xs ih =>
    rw [sortLe, filter_insertLe htrans (pairwise_sortLe xs htot htrans), List.filter_cons]
    by_cases hx : p x
    · simp [hx, sortLe, ih]
    · simp [hx, ih]

/-! ## Generic helper lemmas -/

theorem find?_eq_head?_filter (p : α → Bool) (l : List α) :
    l.find? p = (l.filter p).head? := by
  induction l with
  | nil => rfl
  | cons x xs ih =>
    by_cases h : p x
    · rw [List.find?_cons_of_pos _ h]
      simp [List.filter_cons, h]
    · have hx : p x = false := Bool.eq_false_iff.mpr h
      rw [List.find?_cons_of_neg _ h, ih, List.filter_cons, hx]
      simp

/-- Membership in the open-checkouts join. -/
theorem mem_joinCheckoutsBooks {db : Db} {pr : CheckoutRow × BookRow} :
    pr ∈ joinCheckoutsBooks db ↔
      pr.1 ∈ db.checkouts ∧ pr.2 ∈ db.books ∧ pr.2.book_id = pr.1.book_id := by
  rcases pr with ⟨c, b⟩
  simp only [joinCheckoutsBooks, List.mem_flatMap, List.mem_map, List.mem_filter]
  constructor
  · rintro ⟨c', hc', b', ⟨hb', hbid⟩, heq⟩
    cases heq
    exact ⟨hc', hb', eq_of_beq hbid⟩
  · rintro ⟨hc, hb, hbid⟩
    exact ⟨c, hc, b, ⟨hb, by simp [hbid]⟩, rfl⟩

/-- Membership in the returned-checkouts join. -/
theorem mem_joinReturnedBooks {db : Db} {pr : ReturnedCheckoutRow × BookRow} :
    pr ∈ joinReturnedBooks db ↔
      pr.1 ∈ db.returned_checkouts ∧ pr.2 ∈ db.books ∧ pr.2.book_id = pr.1.book_id := by
  rcases pr with ⟨r, b⟩
  simp only [joinReturnedBooks, List.mem_flatMap, List.mem_map, List.mem_filter]
  constructor
  · rintro ⟨r', hr', b', ⟨hb', hbid⟩, heq⟩
    cases heq
    exact ⟨hr', hb', eq_of_beq hbid⟩
  · rintro ⟨hr, hb, hbid⟩
    exact ⟨r, hr, b, ⟨hb, by simp [hbid]⟩, rfl⟩

theorem leCheckedOutAsc_total :
    ∀ p q : CheckoutRow × BookRow, leCheckedOutAsc p q = true ∨ leCheckedOutAsc q p = true := by
  intro p q
  simp only [leCheckedOutAsc, decide_eq_true_eq]
  exact Nat.le_total _ _

theorem leCheckedOutAsc_trans :
    ∀ p q r : CheckoutRow × BookRow,
      leCheckedOutAsc p q = true → leCheckedOutAsc q r = true → leCheckedOutAsc p r = true := by
  intro p q r
  simp only [leCheckedOutAsc, decide_eq_true_eq]
  exact Nat.le_trans

theorem leCheckedOutDesc_total :
    ∀ p q : ReturnedCheckoutRow × BookRow,
      leCheckedOutDesc p q = true ∨ leCheckedOutDesc q p = true := by
  intro p q
  simp only [leCheckedOutDesc, decide_eq_true_eq]
  exact Nat.le_total _ _

theorem leCheckedOutDesc_trans :
    ∀ p q r : ReturnedCheckoutRow × BookRow,
      leCheckedOutDesc p q = true → leCheckedOutDesc q r = true → leCheckedOutDesc p r = true := by
  intro p q r
  simp only [leCheckedOutDesc, decide_eq_true_eq]
  intro h₁ h₂
  exact Nat.le_trans h₂ h₁

/-! ## Shape lemmas for the two mutating operations -/

theorem createGuard_none {db : Db} {e : CreateCheckout} (h : createGuard db e = none) :
    (db.books.find? fun b => b.book_id == e.book_id).isSome = true ∧
    (db.checkouts.find? fun c => c.book_id == e.book_id) = none := by
  unfold createGuard at h
  cases hb : db.books.find? fun b => b.book_id == e.book_id with
  | none => rw [hb] at h; simp at h
  | some b =>
    rw [hb] at h
    cases hc : db.checkouts.find? fun c => c.book_id == e.book_id with
    | none => simp [hb]
    | some c => rw [hc] at h; simp at h

theorem updateGuard_none {db : Db} {e : UpdateReturned} (h : updateGuard db e = none) :
    (db.books.find? fun b => b.book_id == e.book_id).isSome = true ∧
    ∀ c, (db.checkouts.find? fun k => k.book_id == e.book_id) = some c →
      c.checkout_id = e.checkout_id ∧ c.user_id = e.returned_by := by
  unfold updateGuard at h
  cases hb : db.books.find? fun b => b.book_id == e.book_id with
  | none => rw [hb] at h; simp at h
  | some b =>
    rw [hb] at h
    refine ⟨rfl, ?_⟩
    intro c hc
    rw [hc] at h
    dsimp only at h
    by_cases hmatch : (c.checkout_id == e.checkout_id && c.user_id == e.returned_by) = true
    · rcases (Bool.and_eq_true _ _).mp hmatch with ⟨h1, h2⟩
      exact ⟨eq_of_beq h1, eq_of_beq h2⟩
    · rw [if_neg hmatch] at h
      simp at h

/-- The committed state of a successful `create`. -/
theorem create_ok {db : Db} {e : CreateCheckout} {cid : Nat} {db' : Db}
    (h : create db e cid = Except.ok db') :
    createGuard db e = none ∧
    db' = { db with checkouts := db.checkouts ++
      [{ checkout_id := cid, book_id := e.book_id, user_id := e.checked_out_by,
         checked_out_at := e.checked_out_at }] } := by
  unfold create at h
  cases hg : createGuard db e with
  | some err => rw [hg] at h; simp at h
  | none =>
    rw [hg] at h
    simp only [Except.ok.injEq] at h
    exact ⟨rfl, h.symm⟩

/-- The row moved into `returned_checkouts` by `update_returned`. -/
def toReturnedRow (t : Nat) (c : CheckoutRow) : ReturnedCheckoutRow :=
  { checkout_id := c.checkout_id
    book_id := c.book_id
    user_id := c.user_id
    checked_out_at := c.checked_out_at
    returned_at := t }

/-- The committed state of a successful `update_returned`: the moved rows
are those whose `checkout_id` equals the submitted `returned_at` (the
swapped `WHERE` binding), stamped with `returned_at := e.checkout_id`,
while the delete removes the rows keyed by `e.checkout_id`. -/
theorem update_returned_ok {db : Db} {e : UpdateReturned} {db' : Db}
    (h : update_returned db e = Except.ok db') :
    updateGuard db e = none ∧
    (db.checkouts.filter fun c => c.checkout_id == e.returned_at) ≠ [] ∧
    db' = { db with
      checkouts := db.checkouts.filter fun c => ¬ c.checkout_id == e.checkout_id
      returned_checkouts := db.returned_checkouts ++
        ((db.checkouts.filter fun c => c.checkout_id == e.returned_at).map
          (toReturnedRow e.checkout_id)) } := by
  unfold update_returned at h
  cases hg : updateGuard db e with
  | some err => rw [hg] at h; simp at h
  | none =>
    rw [hg] at h
    dsimp only at h
    by_cases hm : (db.checkouts.filter fun c => c.checkout_id == e.returned_at).length < 1
    · rw [if_pos hm] at h; simp at h
    · rw [if_neg hm] at h
      by_cases hd : db.checkouts.length -
          (db.checkouts.filter fun c => ¬ c.checkout_id == e.checkout_id).length < 1
      · rw [if_pos hd] at h; simp at h
      · rw [if_neg hd] at h
        simp only [Except.ok.injEq] at h
        refine ⟨rfl, ?_, ?_⟩
        · intro hnil
          rw [hnil] at hm
          exact hm Nat.zero_lt_one
        · rw [← h]
          rfl

/-! ## The claims -/

/-- C5: the guard read of `createCheckout` classifies every state exactly:
a missing book row fails with `EntityNotFound`; an existing book row with
an open checkout fails with `UnprocessableEntity` (Conflict); otherwise
the guard passes and the new `checkouts` row is inserted and committed. -/
theorem C5_create_guard_classification (db : Db) (e : CreateCheckout) (cid : Nat) :
    ((db.books.find? fun b => b.book_id == e.book_id) = none →
      createRun db e cid = (db, some (AppError.EntityNotFound e.book_id))) ∧
    ((db.books.find? fun b => b.book_id == e.book_id).isSome = true →
      (db.checkouts.find? fun c => c.book_id == e.book_id).isSome = true →
      createRun db e cid = (db, some (AppError.UnprocessableEntity [e.book_id]))) ∧
    ((db.books.find? fun b => b.book_id == e.book_id).isSome = true →
      (db.checkouts.find? fun c => c.book_id == e.book_id) = none →
      createRun db e cid =
        ({ db with checkouts := db.checkouts ++
            [{ checkout_id := cid, book_id := e.book_id, user_id := e.checked_out_by,
               checked_out_at := e.checked_out_at }] }, none)) := by
  refine ⟨?_, ?_, ?_⟩
  · intro h
    simp [createRun, create, createGuard, h]
  · intro h1 h2
    rcases Option.isSome_iff_exists.mp h1 with ⟨b, hb⟩
    rcases Option.isSome_iff_exists.mp h2 with ⟨c, hc⟩
    simp [createRun, create, createGuard, hb, hc]
  · intro h1 h2
    rcases Option.isSome_iff_exists.mp h1 with ⟨b, hb⟩
    simp [createRun, create, createGuard, hb, h2]

/-- Witness for C5: the three guard outcomes on concrete stores (book 1
missing; book 2 present and checked out; book 2 present and free). -/
theorem C5_create_guard_classification_witness :
    (createRun { books := [], checkouts := [], returned_checkouts := [] }
        { book_id := 1, checked_out_by := 4, checked_out_at := 9 } 11 =
      ({ books := [], checkouts := [], returned_checkouts := [] },
        some (AppError.EntityNotFound 1))) ∧
    (createRun
        { books := [{ book_id := 2, title := "t", author := "a", isbn := "i" }],
          checkouts := [{ checkout_id := 5, book_id := 2, user_id := 7, checked_out_at := 1 }],
          returned_checkouts := [] }
        { book_id := 2, checked_out_by := 4, checked_out_at := 9 } 11 =
      ({ books := [{ book_id := 2, title := "t", author := "a", isbn := "i" }],
         checkouts := [{ checkout_id := 5, book_id := 2, user_id := 7, checked_out_at := 1 }],
         returned_checkouts := [] },
        some (AppError.UnprocessableEntity [2]))) ∧
    (createRun
        { books := [{ book_id := 2, title := "t", author := "a", isbn := "i" }],
          checkouts := [], returned_checkouts := [] }
        { book_id := 2, checked_out_by := 4, checked_out_at := 9 } 11 =
      ({ books := [{ book_id := 2, title := "t", author := "a", isbn := "i" }],
         checkouts := [{ checkout_id := 11, book_id := 2, user_id := 4, checked_out_at := 9 }],
         returned_checkouts := [] }, none)) :=
  ⟨(C5_create_guard_classification _ _ _).1 (by decide),
   (C5_create_guard_classification _ _ _).2.1 (by decide) (by decide),
   (C5_create_guard_classification _ _ _).2.2 (by decide) (by decide)⟩

/-- C2: the invariant "at most one open checkout per book" is preserved by
both mutating operations, and on a book that already has an open checkout
a second `create` fails with Conflict and leaves the store unchanged. -/
theorem C2_at_most_one_open_invariant (db : Db) (hinv : atMostOneOpen db) :
    (∀ e cid db', create db e cid = Except.ok db' → atMostOneOpen db') ∧
    (∀ e db', update_returned db e = Except.ok db' → atMostOneOpen db') ∧
    (∀ (e : CreateCheckout) (cid : Nat) (c : CheckoutRow),
      (db.checkouts.filter fun k => k.book_id == e.book_id) = [c] →
      (db.books.find? fun b => b.book_id == e.book_id).isSome = true →
      createRun db e cid = (db, some (AppError.UnprocessableEntity [e.book_id]))) := by
  refine ⟨?_, ?_, ?_⟩
  · intro e cid db' hok
    rcases create_ok hok with ⟨hg, rfl⟩
    rcases createGuard_none hg with ⟨-, hnone⟩
    have hall := List.find?_eq_none.mp hnone
    unfold atMostOneOpen
    rw [List.pairwise_append]
    refine ⟨hinv, List.pairwise_singleton _ _, ?_⟩
    intro a ha b hb
    rw [List.mem_singleton.mp hb]
    intro hbid
    exact hall a ha (by simp [hbid])
  · intro e db' hok
    rcases update_returned_ok hok with ⟨-, -, rfl⟩
    exact List.Pairwise.sublist (List.filter_sublist _) hinv
  · intro e cid c hfil hbook
    rcases Option.isSome_iff_exists.mp hbook with ⟨b, hb⟩
    have hfind : (db.checkouts.find? fun k => k.book_id == e.book_id) = some c := by
      rw [find?_eq_head?_filter, hfil]
      rfl
    simp [createRun, create, createGuard, hb, hfind]

/-- Witness for C2: on a store where book 2 is checked out (checkout 5 by
user 7), the invariant holds and the theorem yields the concrete conflict
outcome of a second checkout attempt. -/
theorem C2_at_most_one_open_invariant_witness :
    createRun
        { books := [{ book_id := 2, title := "t", author := "a", isbn := "i" }],
          checkouts := [{ checkout_id := 5, book_id := 2, user_id := 7, checked_out_at := 1 }],
          returned_checkouts := [] }
        { book_id := 2, checked_out_by := 8, checked_out_at := 9 } 12 =
      ({ books := [{ book_id := 2, title := "t", author := "a", isbn := "i" }],
         checkouts := [{ checkout_id := 5, book_id := 2, user_id := 7, checked_out_at := 1 }],
         returned_checkouts := [] },
        some (AppError.UnprocessableEntity [2])) :=
  (C2_at_most_one_open_invariant _ (by decide)).2.2
    { book_id := 2, checked_out_by := 8, checked_out_at := 9 } 12
    { checkout_id := 5, book_id := 2, user_id := 7, checked_out_at := 1 }
    (by decide) (by decide)

/-- Counterexample to C3 as stated: book 1 exists and has no open
checkout (checkout 10 is open on book 2), so the submitted pair `(10, 7)`
does not equal the `(checkout_id, user_id)` of any open checkout row for
book 1.  The claim demands a Conflict error, but the guard sees no open
checkout on book 1 and falls through, and the call fails in the write
phase with the `NoRowsAffectedError` write anomaly instead — a mismatch
is not always rejected with Conflict. -/
theorem C3_counterexample :
    update_returned
        { books := [{ book_id := 1, title := "t1", author := "a1", isbn := "i1" },
                    { book_id := 2, title := "t2", author := "a2", isbn := "i2" }],
          checkouts := [{ checkout_id := 10, book_id := 2, user_id := 7, checked_out_at := 100 }],
          returned_checkouts := [] }
        { checkout_id := 10, book_id := 1, returned_by := 7, returned_at := 5 } =
      Except.error (AppError.NoRowsAffectedError "No returning record has been updated") := by
  rfl

/-- C3 (amended): when the submitted book exists and has an open checkout
row `c`, `update_returned` succeeds only if the submitted
`(checkout_id, returned_by)` pair equals `(c.checkout_id, c.user_id)`;
on any mismatch it fails with a Conflict error (`UnprocessableEntity`)
and no row of the store is mutated. -/
theorem C3_return_guard_match (db : Db) (e : UpdateReturned) (c : CheckoutRow)
    (hbook : (db.books.find? fun b => b.book_id == e.book_id).isSome = true)
    (hopen : (db.checkouts.filter fun k => k.book_id == e.book_id) = [c]) :
    ((update_returned db e).isOk = true →
      c.checkout_id = e.checkout_id ∧ c.user_id = e.returned_by) ∧
    (¬ (c.checkout_id = e.checkout_id ∧ c.user_id = e.returned_by) →
      updateRun db e =
        (db, some (AppError.UnprocessableEntity [e.checkout_id, e.returned_by, e.book_id]))) := by
  rcases Option.isSome_iff_exists.mp hbook with ⟨b, hb⟩
  have hfind : (db.checkouts.find? fun k => k.book_id == e.book_id) = some c := by
    rw [find?_eq_head?_filter, hopen]
    rfl
  constructor
  · intro hok
    cases h : update_returned db e with
    | error err => rw [h] at hok; simp [Except.isOk, Except.toBool] at hok
    | ok db' =>
      rcases update_returned_ok h with ⟨hg, -, -⟩
      exact (updateGuard_none hg).2 c hfind
  · intro hmism
    have hguard : updateGuard db e =
        some (AppError.UnprocessableEntity [e.checkout_id, e.returned_by, e.book_id]) := by
      unfold updateGuard
      rw [hb, hfind]
      dsimp only
      rw [if_neg ?_]
      intro hand
      rcases (Bool.and_eq_true _ _).mp hand with ⟨h1, h2⟩
      exact hmism ⟨eq_of_beq h1, eq_of_beq h2⟩
    simp [updateRun, update_returned, hguard]

/-- Witness for C3 (amended): book 2 is checked out as checkout 5 by
user 7; a return submitted by user 8 is rejected with the Conflict error
and the store is unchanged. -/
theorem C3_return_guard_match_witness :
    updateRun
        { books := [{ book_id := 2, title := "t", author := "a", isbn := "i" }],
          checkouts := [{ checkout_id := 5, book_id := 2, user_id := 7, checked_out_at := 1 }],
          returned_checkouts := [] }
        { checkout_id := 5, book_id := 2, returned_by := 8, returned_at := 9 } =
      ({ books := [{ book_id := 2, title := "t", author := "a", isbn := "i" }],
         checkouts := [{ checkout_id := 5, book_id := 2, user_id := 7, checked_out_at := 1 }],
         returned_checkouts := [] },
        some (AppError.UnprocessableEntity [5, 8, 2])) :=
  (C3_return_guard_match _
      { checkout_id := 5, book_id := 2, returned_by := 8, returned_at := 9 }
      { checkout_id := 5, book_id := 2, user_id := 7, checked_out_at := 1 }
      (by decide) (by decide)).2 (by decide)

/-- C4 (code bug): the write phase never performs the claimed atomic
move.  The insert-from-select's positionally swapped `WHERE` compares
`checkout_id` against the submitted `returned_at`; whenever no open
checkout's id equals that timestamp — always the case in the real
program, where checkout ids are UUIDs and `returned_at` a timestamp —
the insert affects zero rows even after a passing guard, and the
operation fails with the `NoRowsAffectedError` write anomaly, rolling
back and leaving the store unchanged, so the claimed
delete-plus-one-returned-row commit is unreachable. -/
theorem C4_return_insert_write_anomaly (db : Db) (e : UpdateReturned)
    (hg : updateGuard db e = none)
    (hdisj : ∀ c ∈ db.checkouts, c.checkout_id ≠ e.returned_at) :
    updateRun db e =
      (db, some (AppError.NoRowsAffectedError "No returning record has been updated")) := by
  have hfil : (db.checkouts.filter fun c => c.checkout_id == e.returned_at) = [] := by
    refine List.filter_eq_nil_iff.mpr ?_
    intro c hc hbeq
    exact hdisj c hc (eq_of_beq hbeq)
  unfold updateRun update_returned
  rw [hg]
  dsimp only
  rw [if_pos (by rw [hfil]; simp)]

/-- The store of the C4 witness: books 2 and 3, both checked out. -/
def dbC4 : Db :=
  { books := [{ book_id := 2, title := "t", author := "a", isbn := "i" },
              { book_id := 3, title := "u", author := "b", isbn := "j" }],
    checkouts := [{ checkout_id := 5, book_id := 2, user_id := 7, checked_out_at := 1 },
                  { checkout_id := 6, book_id := 3, user_id := 8, checked_out_at := 2 }],
    returned_checkouts := [] }

/-- Witness for C4: returning checkout 5 of book 2, with the exactly
matching borrower 7, passes the guard yet aborts with the insert write
anomaly and leaves the store unchanged. -/
theorem C4_return_insert_write_anomaly_witness :
    updateRun dbC4 { checkout_id := 5, book_id := 2, returned_by := 7, returned_at := 9 } =
      (dbC4, some (AppError.NoRowsAffectedError "No returning record has been updated")) :=
  C4_return_insert_write_anomaly dbC4
    { checkout_id := 5, book_id := 2, returned_by := 7, returned_at := 9 }
    (by decide) (by decide)

/-- C1 (code bug): the claimed success of a matching return is
unreachable.  Whenever no open checkout's id equals the submitted
`returned_at` — always the case in the real program, where checkout ids
are UUIDs and `returned_at` a timestamp — `update_returned` cannot
succeed on any store: the positionally swapped insert-from-select
matches zero `checkouts` rows, so the call aborts with the write anomaly
before the delete, where the claim (and the repository's own
`test_checkout_and_return`, which awaits a successful return) expects
success followed by an empty open set and an updated history. -/
theorem C1_return_never_commits (db : Db) (e : UpdateReturned)
    (hdisj : ∀ c ∈ db.checkouts, c.checkout_id ≠ e.returned_at) :
    (update_returned db e).isOk = false := by
  cases h : update_returned db e with
  | error err => rfl
  | ok db' =>
    rcases update_returned_ok h with ⟨-, hne, -⟩
    refine absurd (List.filter_eq_nil_iff.mpr ?_) hne
    intro c hc hbeq
    exact hdisj c hc (eq_of_beq hbeq)

/-- The store of the C1 witness: book 2 checked out as checkout 5 by
user 7. -/
def dbC1 : Db :=
  { books := [{ book_id := 2, title := "t", author := "a", isbn := "i" }],
    checkouts := [{ checkout_id := 5, book_id := 2, user_id := 7, checked_out_at := 1 }],
    returned_checkouts := [] }

/-- Witness for C1: the exactly matching return — checkout 5 of book 2,
submitted by its borrower 7 — still does not succeed. -/
theorem C1_return_never_commits_witness :
    (update_returned dbC1
        { checkout_id := 5, book_id := 2, returned_by := 7, returned_at := 9 }).isOk = false :=
  C1_return_never_commits dbC1
    { checkout_id := 5, book_id := 2, returned_by := 7, returned_at := 9 }
    (by decide)

/-- C6: the history of a book is its returned records (a permutation of
the returned-set join for that book) ordered by `checked_out_at`
descending, with the open checkout — when one exists — placed at
position 0, ahead of all returned records regardless of timestamps. -/
theorem C6_history_ordering (db : Db) (book_id : Nat) :
    find_history_by_book_id db book_id =
      (find_unreturned_by_book_id db book_id).toList ++ returnedHistory db book_id ∧
    (returnedHistory db book_id).Pairwise
      (fun x y : Checkout => y.checked_out_at ≤ x.checked_out_at) ∧
    (returnedHistory db book_id).Perm
      (((joinReturnedBooks db).filter fun p => p.1.book_id == book_id).map
        fun p => Checkout.fromReturnedRow p.1 p.2) := by
  refine ⟨?_, ?_, ?_⟩
  · unfold find_history_by_book_id
    cases find_unreturned_by_book_id db book_id <;> simp [Option.toList]
  · unfold returnedHistory
    refine List.Pairwise.map _ ?_
      (pairwise_sortLe _ leCheckedOutDesc_total leCheckedOutDesc_trans)
    intro p q hpq
    simpa [leCheckedOutDesc, Checkout.fromReturnedRow] using hpq
  · exact (sortLe_perm _ _).map _

/-- C7: `find_unreturned_all` lists every open checkout joined with its
book, ordered by `checked_out_at` ascending, and
`find_unreturned_by_user_id` is exactly the subsequence of that list
whose borrower is the supplied user, in the same order. -/
theorem C7_unreturned_listings (db : Db) (user_id : Nat) :
    (find_unreturned_all db).Perm
      ((joinCheckoutsBooks db).map fun p => Checkout.fromRow p.1 p.2) ∧
    (find_unreturned_all db).Pairwise
      (fun x y : Checkout => x.checked_out_at ≤ y.checked_out_at) ∧
    find_unreturned_by_user_id db user_id =
      (find_unreturned_all db).filter fun c => c.checked_out_by == user_id := by
  refine ⟨?_, ?_, ?_⟩
  · exact (sortLe_perm _ _).map _
  · unfold find_unreturned_all
    refine List.Pairwise.map _ ?_
      (pairwise_sortLe _ leCheckedOutAsc_total leCheckedOutAsc_trans)
    intro p q hpq
    simpa [leCheckedOutAsc, Checkout.fromRow] using hpq
  · unfold find_unreturned_all find_unreturned_by_user_id
    rw [List.filter_map]
    have hcomp : ((fun c : Checkout => c.checked_out_by == user_id) ∘
        fun p : CheckoutRow × BookRow => Checkout.fromRow p.1 p.2) =
        fun p : CheckoutRow × BookRow => p.1.user_id == user_id := rfl
    rw [hcomp,
      filter_sortLe (fun p : CheckoutRow × BookRow => p.1.user_id == user_id)
        (joinCheckoutsBooks db) leCheckedOutAsc_total leCheckedOutAsc_trans]

/-- C8: in both mutating operations the `SET TRANSACTION ISOLATION LEVEL
SERIALIZABLE` statement is the first statement of the transaction — it
heads the statement trace on every input, and never occurs again later,
so no guard read or write precedes it. -/
theorem C8_serializable_issued_first (db : Db) (e₁ : CreateCheckout) (cid : Nat)
    (e₂ : UpdateReturned) :
    (createStmts db e₁ cid).head? = some Stmt.setSerializable ∧
    (updateStmts db e₂).head? = some Stmt.setSerializable ∧
    Stmt.setSerializable ∉ (createStmts db e₁ cid).tail ∧
    Stmt.setSerializable ∉ (updateStmts db e₂).tail := by
  refine ⟨rfl, rfl, ?_, ?_⟩
  · unfold createStmts
    cases createGuard db e₁ <;> simp
  · unfold updateStmts
    cases updateGuard db e₂ with
    | some err => simp
    | none =>
      simp only [List.tail_cons]
      split <;> simp

/-- C9: a book id with no book row yields an empty history (success, not
an `EntityNotFound` error), while both mutating operations reject the
same book id with `EntityNotFound` and leave the store unchanged. -/
theorem C9_history_of_missing_book (db : Db) (book_id : Nat)
    (hbook : (db.books.find? fun b => b.book_id == book_id) = none) :
    find_history_by_book_id db book_id = [] ∧
    (∀ uid t cid,
      createRun db { book_id := book_id, checked_out_by := uid, checked_out_at := t } cid =
        (db, some (AppError.EntityNotFound book_id))) ∧
    (∀ cid uid t,
      updateRun db
          { checkout_id := cid, book_id := book_id, returned_by := uid, returned_at := t } =
        (db, some (AppError.EntityNotFound book_id))) := by
  have hall := List.find?_eq_none.mp hbook
  refine ⟨?_, ?_, ?_⟩
  · have hopen : find_unreturned_by_book_id db book_id = none := by
      unfold find_unreturned_by_book_id
      have : ((joinCheckoutsBooks db).filter fun p => p.1.book_id == book_id) = [] := by
        refine List.filter_eq_nil_iff.mpr ?_
        intro pr hpr hpb
        rcases mem_joinCheckoutsBooks.mp hpr with ⟨-, hb, hbid⟩
        exact hall pr.2 hb (by rw [hbid]; exact hpb)
      rw [this]
      rfl
    have hret : returnedHistory db book_id = [] := by
      unfold returnedHistory
      have : ((joinReturnedBooks db).filter fun p => p.1.book_id == book_id) = [] := by
        refine List.filter_eq_nil_iff.mpr ?_
        intro pr hpr hpb
        rcases mem_joinReturnedBooks.mp hpr with ⟨-, hb, hbid⟩
        exact hall pr.2 hb (by rw [hbid]; exact hpb)
      rw [this]
      rfl
    unfold find_history_by_book_id
    rw [hopen, hret]
  · intro uid t cid
    simp [createRun, create, createGuard, hbook]
  · intro cid uid t
    simp [updateRun, update_returned, updateGuard, hbook]

/-- The store of the C9 witness: only book 2 exists, and it is checked
out as checkout 5 by user 7. -/
def dbC9 : Db :=
  { books := [{ book_id := 2, title := "t", author := "a", isbn := "i" }],
    checkouts := [{ checkout_id := 5, book_id := 2, user_id := 7, checked_out_at := 1 }],
    returned_checkouts := [] }

/-- Witness for C9: queries and mutations against the missing book 1
behave as the theorem states. -/
theorem C9_history_of_missing_book_witness :
    find_history_by_book_id dbC9 1 = [] ∧
    createRun dbC9 { book_id := 1, checked_out_by := 4, checked_out_at := 8 } 11 =
      (dbC9, some (AppError.EntityNotFound 1)) ∧
    updateRun dbC9 { checkout_id := 5, book_id := 1, returned_by := 7, returned_at := 8 } =
      (dbC9, some (AppError.EntityNotFound 1)) :=
  ⟨(C9_history_of_missing_book dbC9 1 (by decide)).1,
   (C9_history_of_missing_book dbC9 1 (by decide)).2.1 4 8 11,
   (C9_history_of_missing_book dbC9 1 (by decide)).2.2 5 7 8⟩

/-- The hypothetical second store of C10: the `user_id` of every open
checkout row on book `B` rewritten by `g`; all other data unchanged. -/
def mapUsersOnBook (g : CheckoutRow → Nat) (B : Nat) (db : Db) : Db :=
  { db with checkouts := db.checkouts.map fun c =>
      if c.book_id == B then { c with user_id := g c } else c }

/-- The caller-visible result of `create`: the Rust method returns
`AppResult<()>`, so the committed state is not part of the result. -/
def createOutcome (db : Db) (event : CreateCheckout) (checkout_id : Nat) :
    Except AppError Unit :=
  (create db event checkout_id).map fun _ => ()

/-- C10: the outcome of `createCheckout` does not depend on who currently
holds the requested book: rewriting the `user_id` of the open checkout
rows on that book (by any function `g`) leaves the result — error or
success — unchanged, so the holder re-borrowing is rejected exactly like
any other borrower. -/
theorem C10_create_ignores_current_holder (db : Db) (e : CreateCheckout) (cid : Nat)
    (g : CheckoutRow → Nat) :
    createOutcome (mapUsersOnBook g e.book_id db) e cid = createOutcome db e cid := by
  have hcomp : ((fun c : CheckoutRow => c.book_id == e.book_id) ∘
      fun c : CheckoutRow => if c.book_id == e.book_id then { c with user_id := g c } else c) =
      fun c : CheckoutRow => c.book_id == e.book_id := by
    funext c
    by_cases hc : (c.book_id == e.book_id) = true <;> simp [Function.comp, hc]
  have hguard : createGuard (mapUsersOnBook g e.book_id db) e = createGuard db e := by
    unfold createGuard mapUsersOnBook
    dsimp only
    rw [List.find?_map, hcomp]
    cases db.books.find? fun b => b.book_id == e.book_id <;>
      cases hfc : db.checkouts.find? fun c => c.book_id == e.book_id <;>
      simp [hfc]
  unfold createOutcome create
  rw [hguard]
  cases createGuard db e <;> rfl

end BookManager
